import Mathlib

/-!
Verification of the zefood driver app real-time offer and tracking subsystem.
Each definition is a shallow embedding of a function from the TypeScript
source; the file reference is given in the doc comment of each definition.
-/

namespace ZeFood

/-- A delivery offer as held in the HomeScreen deliveries list. The handlers
under verification consult only the id field; the fee stands in for the rest
of the payload carried by the record. -/
structure Delivery where
  id : String
  deliveryFee : Int
deriving DecidableEq, Repr

/-- From HomeScreen handleNewAvailableDelivery (part_003 lines 41 to 52):
if the id is already present the previous list is returned unchanged,
otherwise the new order is prepended. The vibration side effect happens only
on the prepend branch and carries no state. -/
def handleNewAvailableDelivery (order : Delivery) (prev : List Delivery) : List Delivery :=
  if prev.any (fun d => d.id == order.id) then prev
  else order :: prev

/-- From HomeScreen handleDeliveryTaken (part_003 lines 55 to 57):
the list is filtered, keeping the deliveries whose id differs. -/
def handleDeliveryTaken (orderId : String) (prev : List Delivery) : List Delivery :=
  prev.filter (fun d => d.id != orderId)

/-- The two socket offer events dispatched to the handlers above
(useOrdersSocket.ts lines 47 to 56). -/
inductive OfferEvent where
  | newOffer (o : Delivery)
  | offerTaken (id : String)
deriving DecidableEq, Repr

/-- Dispatch of one inbound offer event to its handler. -/
def applyOfferEvent (s : List Delivery) (e : OfferEvent) : List Delivery :=
  match e with
  | .newOffer o => handleNewAvailableDelivery o s
  | .offerTaken i => handleDeliveryTaken i s

/-- A sequence of inbound offer events applied in delivery order. -/
def applyOfferEvents (s : List Delivery) (es : List OfferEvent) : List Delivery :=
  es.foldl applyOfferEvent s

lemma nodup_ids_handleNewAvailableDelivery (o : Delivery) (s : List Delivery)
    (h : (s.map Delivery.id).Nodup) :
    ((handleNewAvailableDelivery o s).map Delivery.id).Nodup := by
  unfold handleNewAvailableDelivery
  cases hany : s.any (fun d => d.id == o.id) with
  | true => rw [if_pos rfl]; exact h
  | false =>
    rw [if_neg (by simp)]
    rw [List.map_cons, List.nodup_cons]
    refine ⟨?_, h⟩
    intro hmem
    rcases List.mem_map.mp hmem with ⟨d, hd, hid⟩
    have := List.any_eq_false.mp hany d hd
    simp [hid] at this

lemma nodup_ids_handleDeliveryTaken (i : String) (s : List Delivery)
    (h : (s.map Delivery.id).Nodup) :
    ((handleDeliveryTaken i s).map Delivery.id).Nodup := by
  have hsub : List.Sublist ((handleDeliveryTaken i s).map Delivery.id) (s.map Delivery.id) :=
    (List.filter_sublist s).map Delivery.id
  exact h.sublist hsub

lemma nodup_ids_applyOfferEvent (e : OfferEvent) (s : List Delivery)
    (h : (s.map Delivery.id).Nodup) :
    ((applyOfferEvent s e).map Delivery.id).Nodup := by
  cases e with
  | newOffer o => exact nodup_ids_handleNewAvailableDelivery o s h
  | offerTaken i => exact nodup_ids_handleDeliveryTaken i s h

/-- Claim C2: a newOffer event whose id is already present leaves the list
unchanged, a fresh id is prepended to the front, and any sequence of offer
events starting from a list with distinct ids yields a list in which every
id occurs at most once. -/
theorem newOffer_insertion_c2 (o : Delivery) (prev : List Delivery) :
    ((∃ d ∈ prev, d.id = o.id) → handleNewAvailableDelivery o prev = prev)
    ∧ ((∀ d ∈ prev, d.id ≠ o.id) → handleNewAvailableDelivery o prev = o :: prev)
    ∧ (∀ (es : List OfferEvent) (s : List Delivery),
        (s.map Delivery.id).Nodup → ((applyOfferEvents s es).map Delivery.id).Nodup) := by
  refine ⟨?_, ?_, ?_⟩
  · rintro ⟨d, hd, hid⟩
    have hany : prev.any (fun x => x.id == o.id) = true :=
      List.any_eq_true.mpr ⟨d, hd, by simp [hid]⟩
    simp [handleNewAvailableDelivery, hany]
  · intro h
    have hany : prev.any (fun x => x.id == o.id) = false := by
      rw [List.any_eq_false]
      intro x hx
      simp [h x hx]
    simp [handleNewAvailableDelivery, hany]
  · intro es
    induction es with
    | nil => intro s hs; simpa [applyOfferEvents] using hs
    | cons e es ih =>
      intro s hs
      have : applyOfferEvents s (e :: es) = applyOfferEvents (applyOfferEvent s e) es := rfl
      rw [this]
      exact ih _ (nodup_ids_applyOfferEvent e s hs)

/-- Concrete offer used in witnesses and counterexamples. -/
def offerA : Delivery := { id := "A", deliveryFee := 7 }

/-- Second concrete offer with a distinct id. -/
def offerB : Delivery := { id := "B", deliveryFee := 5 }

/-- Witness for C2: inserting offerA into a list already holding id A is the
identity on that list. -/
theorem newOffer_insertion_c2_witness :
    handleNewAvailableDelivery offerA [offerA] = [offerA] :=
  (newOffer_insertion_c2 offerA [offerA]).1 ⟨offerA, by simp, rfl⟩

/-- Claim C3: an offerTaken event removes exactly the offers bearing the
given id, keeping the relative order of the rest; after inserting offer A
and then taking A no offer with id A remains; and when no offer carries the
id the list is returned unchanged (the operation is total, never an error). -/
theorem offerTaken_removal_c3 (i : String) (prev : List Delivery) :
    (∀ d, d ∈ handleDeliveryTaken i prev ↔ d ∈ prev ∧ d.id ≠ i)
    ∧ (handleDeliveryTaken i prev).Sublist prev
    ∧ ((∀ d ∈ prev, d.id ≠ i) → handleDeliveryTaken i prev = prev)
    ∧ (∀ o : Delivery,
        ∀ d ∈ handleDeliveryTaken o.id (handleNewAvailableDelivery o prev), d.id ≠ o.id) := by
  refine ⟨?_, ?_, ?_, ?_⟩
  · intro d
    simp [handleDeliveryTaken, List.mem_filter]
  · exact List.filter_sublist prev
  · intro h
    apply List.filter_eq_self.mpr
    intro d hd
    simp [h d hd]
  · intro o d hd
    have := (List.mem_filter.mp hd).2
    simpa using this

/-- Witness for C3: taking id A from a list holding only offerB is a no-op. -/
theorem offerTaken_removal_c3_witness :
    handleDeliveryTaken "A" [offerB] = [offerB] :=
  (offerTaken_removal_c3 "A" [offerB]).2.2.1 (by decide)

/-- Outcome of the accept REST call as observed by the catch handler:
ok, or an error whose response may carry a message
(error.response?.data?.message). -/
inductive AcceptResult where
  | ok
  | error (msg : Option String)
deriving DecidableEq, Repr

/-- The single user-visible outcome produced by one accept attempt. -/
inductive AcceptOutcome where
  | navigated (deliveryId : String)
  | alerted (title msg : String)
deriving DecidableEq, Repr

/-- From HomeScreen handleAcceptDelivery (part_003 lines 102 to 110): post the
accept, then navigate to CurrentDelivery on success, or alert with the
backend message (falling back to a generic text) on failure. The deliveries
state is not touched on either branch. -/
def handleAcceptDelivery (deliveryId : String) (deliveries : List Delivery)
    (resp : AcceptResult) : List Delivery × AcceptOutcome :=
  match resp with
  | .ok => (deliveries, .navigated deliveryId)
  | .error m => (deliveries, .alerted "Erro" (m.getD "Erro ao aceitar entrega"))

/-- Counterexample to C1 as stated: with offer A visible and the backend
rejecting the accept because another driver took it, the accept flow leaves
offer A in the visible list (the claim requires it to be removed). -/
theorem accept_reject_keeps_offer_c1_counterexample :
    offerA ∈ (handleAcceptDelivery "A" [offerA]
      (AcceptResult.error (some "Esta entrega ja foi aceita por outro entregador"))).1 := by
  decide

/-- Claim C1 amended: the accept flow itself never edits the visible list;
on success it reports exactly the navigation outcome and on failure exactly
one alert carrying the backend message (generic fallback), so exactly one
outcome is reported per attempt; offer A disappears only once the separate
deliveryTaken handler processes the taken event, after which no offer with
that id remains. -/
theorem accept_flow_c1 (i : String) (l : List Delivery) (r : AcceptResult) :
    (handleAcceptDelivery i l r).1 = l
    ∧ (r = .ok → (handleAcceptDelivery i l r).2 = .navigated i)
    ∧ (∀ m, r = .error m →
        (handleAcceptDelivery i l r).2 = .alerted "Erro" (m.getD "Erro ao aceitar entrega"))
    ∧ (∀ d ∈ handleDeliveryTaken i (handleAcceptDelivery i l r).1, d.id ≠ i) := by
  refine ⟨?_, ?_, ?_, ?_⟩
  · cases r <;> rfl
  · intro h; subst h; rfl
  · intro m h; subst h; rfl
  · intro d hd
    have := (List.mem_filter.mp hd).2
    simpa using this

/-- Witness for the amended C1: a successful accept of offer A reports the
navigation outcome. -/
theorem accept_flow_c1_witness :
    (handleAcceptDelivery "A" [offerA] AcceptResult.ok).2 = AcceptOutcome.navigated "A" :=
  (accept_flow_c1 "A" [offerA] AcceptResult.ok).2.1 rfl

/-- State of the useLocationTracking hook infrastructure: sockets created by
io are numbered; live holds those not yet disconnected, connectedIds those
whose transport handshake completed, socketRef mirrors socketRef.current and
watching mirrors the watch subscription plus the isTracking flag
(useLocationTracking.ts lines 36 to 37). -/
structure TrackState where
  nextId : Nat
  live : List Nat
  connectedIds : List Nat
  socketRef : Option Nat
  watching : Bool
deriving DecidableEq, Repr

/-- From connectSocket (useLocationTracking.ts lines 40 to 70): with no
driverId the call returns at once; otherwise io creates a fresh connection
and socketRef.current is overwritten with it. The previous socket, if any,
is not disconnected. -/
def connectSocket (driverId : Option String) (t : TrackState) : TrackState :=
  match driverId with
  | none => t
  | some _ =>
      { t with
        nextId := t.nextId + 1
        live := t.nextId :: t.live
        socketRef := some t.nextId }

/-- From disconnectSocket (useLocationTracking.ts lines 73 to 78): when a
socket is held it is disconnected and the ref is cleared; otherwise nothing
happens. -/
def disconnectSocket (t : TrackState) : TrackState :=
  match t.socketRef with
  | none => t
  | some i =>
      { t with
        live := t.live.filter (fun j => j != i)
        connectedIds := t.connectedIds.filter (fun j => j != i)
        socketRef := none }

/-- From stopTracking (useLocationTracking.ts lines 172 to 178): the watch
subscription is removed and isTracking reset. -/
def stopTracking (t : TrackState) : TrackState :=
  { t with watching := false }

/-- The cleanup path of the online effect (useLocationTracking.ts lines
185 to 193): stopTracking then disconnectSocket. -/
def effectCleanup (t : TrackState) : TrackState :=
  disconnectSocket (stopTracking t)

/-- Position data carried by one sample (useLocationTracking.ts lines
14 to 20). Coordinates are carried opaquely as integers. -/
structure LocationData where
  latitude : Int
  longitude : Int
  accuracy : Option Int
  speed : Option Int
  heading : Option Int
deriving DecidableEq, Repr

/-- Payload of the outbound updateLocation emission (useLocationTracking.ts
lines 85 to 93). -/
structure UpdateLocationMsg where
  driverId : String
  latitude : Int
  longitude : Int
  accuracy : Option Int
  speed : Option Int
  heading : Option Int
  orderId : Option String
deriving DecidableEq, Repr

/-- From sendLocationUpdate (useLocationTracking.ts lines 81 to 96): when no
connected socket is held or no driverId is known the call returns with no
emission and no state change; otherwise the updateLocation message is
emitted. -/
def sendLocationUpdate (t : TrackState) (driverId activeOrderId : Option String)
    (loc : LocationData) : TrackState × Option UpdateLocationMsg :=
  match t.socketRef, driverId with
  | some i, some did =>
      if t.connectedIds.contains i then
        (t, some
          { driverId := did
            latitude := loc.latitude
            longitude := loc.longitude
            accuracy := loc.accuracy
            speed := loc.speed
            heading := loc.heading
            orderId := activeOrderId })
      else (t, none)
  | _, _ => (t, none)

/-- True when socketRef.current?.connected holds. -/
def socketConnected (t : TrackState) : Bool :=
  match t.socketRef with
  | some i => t.connectedIds.contains i
  | none => false

lemma sendLocationUpdate_of_ref_none (t : TrackState) (did oid : Option String)
    (loc : LocationData) (h : t.socketRef = none) :
    sendLocationUpdate t did oid loc = (t, none) := by
  cases t with
  | mk n lv cs ref w =>
      simp only [TrackState.socketRef] at h
      subst h
      cases did <;> rfl

/-- Claim C9: a sample passed to sendLocationUpdate while the socket is not
connected, or while no driver identity is known, is silently dropped: no
message is produced and the state is returned exactly as it was, with
nothing queued. -/
theorem send_drops_when_disconnected_c9 (t : TrackState) (did oid : Option String)
    (loc : LocationData) (h : socketConnected t = false ∨ did = none) :
    sendLocationUpdate t did oid loc = (t, none) := by
  rcases h with h | h
  · cases href : t.socketRef with
    | none => exact sendLocationUpdate_of_ref_none t did oid loc href
    | some i =>
        have hc : t.connectedIds.contains i = false := by
          have := h
          rw [socketConnected, href] at this
          exact this
        cases did with
        | none =>
            cases t with
            | mk n lv cs ref w =>
                simp only [TrackState.socketRef] at href
                subst href
                rfl
        | some d =>
            cases t with
            | mk n lv cs ref w =>
                simp only [TrackState.socketRef] at href
                subst href
                simp only [TrackState.connectedIds] at hc
                simp [sendLocationUpdate, hc]
                simpa using hc
  · subst h
    cases href : t.socketRef with
    | none => exact sendLocationUpdate_of_ref_none t (none) oid loc href
    | some i =>
        cases t with
        | mk n lv cs ref w =>
            simp only [TrackState.socketRef] at href
            subst href
            rfl

/-- A concrete tracking state holding one connected socket. -/
def connectedState : TrackState :=
  { nextId := 1, live := [0], connectedIds := [0], socketRef := some 0, watching := true }

/-- A concrete tracking state with no socket at all. -/
def idleState : TrackState :=
  { nextId := 0, live := [], connectedIds := [], socketRef := none, watching := false }

/-- A concrete position sample. -/
def sampleLoc : LocationData :=
  { latitude := 10, longitude := 20, accuracy := some 5, speed := none, heading := none }

/-- Witness for C9: with no socket held the sample is dropped and the state
is unchanged. -/
theorem send_drops_when_disconnected_c9_witness :
    sendLocationUpdate idleState (some "d1") none sampleLoc = (idleState, none) :=
  send_drops_when_disconnected_c9 idleState (some "d1") none sampleLoc (Or.inl rfl)

/-- Counterexample to C5 as stated: calling connectSocket while a connection
is already live is not a no-op; it creates a second live connection. -/
theorem connect_not_noop_c5_counterexample :
    connectSocket (some "d1") connectedState ≠ connectedState
    ∧ (connectSocket (some "d1") connectedState).live.length = 2 := by
  constructor
  · intro h
    have h2 := congrArg TrackState.live h
    exact absurd h2 (by decide)
  · rfl

/-- Claim C5 amended: connectSocket has no already-connected guard: invoked
with a known driverId it always creates a fresh connection and overwrites
the ref, leaving the previous connection live; duplicate connections are
avoided only by the call discipline of the online effect, whose cleanup
disconnects the held socket before connect re-runs, and that
cleanup-then-connect cycle keeps at most one connection live whenever every
live connection is the one held by the ref. -/
theorem connect_discipline_c5 (d : String) (t : TrackState) :
    (connectSocket (some d) t).live = t.nextId :: t.live
    ∧ (connectSocket (some d) t).socketRef = some t.nextId
    ∧ ((∀ i ∈ t.live, t.socketRef = some i) →
        (connectSocket (some d) (effectCleanup t)).live.length ≤ 1
        ∧ ∀ i ∈ (connectSocket (some d) (effectCleanup t)).live,
            (connectSocket (some d) (effectCleanup t)).socketRef = some i) := by
  refine ⟨rfl, rfl, ?_⟩
  intro h
  have hclean : (effectCleanup t).live = [] := by
    unfold effectCleanup stopTracking
    cases href : t.socketRef with
    | none =>
        have hnil : t.live = [] := by
          cases hl : t.live with
          | nil => rfl
          | cons a as =>
              have := h a (by rw [hl]; exact List.mem_cons_self a as)
              rw [href] at this
              cases this
        simp [disconnectSocket, href, hnil]
    | some r =>
        have hall : ∀ j ∈ t.live, (j != r) = false := by
          intro j hj
          have := h j hj
          rw [href] at this
          have hjr : j = r := by injection this with hh; exact hh.symm
          simp [hjr]
        simp only [disconnectSocket, href]
        exact List.filter_eq_nil_iff.mpr (by intro a ha; simp [hall a ha])
  have hl : (connectSocket (some d) (effectCleanup t)).live
      = (effectCleanup t).nextId :: (effectCleanup t).live := rfl
  constructor
  · rw [hl, hclean]
    simp
  · intro i hi
    rw [hl, hclean] at hi
    rcases List.mem_singleton.mp hi with rfl
    rfl

/-- Witness for the amended C5: starting from a state holding one connected
socket owned by the ref, the cleanup-then-connect cycle leaves at most one
live connection. -/
theorem connect_discipline_c5_witness :
    (connectSocket (some "d1") (effectCleanup connectedState)).live.length ≤ 1 :=
  ((connect_discipline_c5 "d1" connectedState).2.2 (by decide)).1

/-- From HomeScreen fetchDeliveries (part_003 lines 66 to 79): offline sets
the list empty without calling the backend; online stores the response data,
an absent body or a request error degrading to the empty list. -/
def fetchDeliveries (isOnline : Bool) (resp : Except Unit (Option (List Delivery))) :
    List Delivery :=
  if isOnline = false then []
  else
    match resp with
    | .ok ds => ds.getD []
    | .error _ => []

/-- Combined HomeScreen state relevant to the offline transition: the
deliveries list plus the tracking hook state. -/
structure AppState where
  deliveries : List Delivery
  track : TrackState
deriving DecidableEq, Repr

/-- The offline transition as the code runs it: the HomeScreen effect
re-fetches with isOnline false (part_003 lines 66 to 83) and the tracking
effect takes its offline branch, stopTracking then disconnectSocket
(useLocationTracking.ts lines 181 to 194). -/
def goOffline (resp : Except Unit (Option (List Delivery))) (s : AppState) : AppState :=
  { deliveries := fetchDeliveries false resp
    track := effectCleanup s.track }

/-- Claim C4: after any sequence of offer events, going offline leaves the
visible-offer list empty unconditionally, the watch subscription stopped and
the tracking socket disconnected, and a sample handed to the send path in
that state produces no emission. -/
theorem offline_clears_c4 (es : List OfferEvent) (init : List Delivery)
    (t : TrackState) (resp : Except Unit (Option (List Delivery)))
    (did oid : Option String) (loc : LocationData) :
    (goOffline resp { deliveries := applyOfferEvents init es, track := t }).deliveries = []
    ∧ (goOffline resp { deliveries := applyOfferEvents init es, track := t }).track.watching
        = false
    ∧ (goOffline resp { deliveries := applyOfferEvents init es, track := t }).track.socketRef
        = none
    ∧ sendLocationUpdate
        (goOffline resp { deliveries := applyOfferEvents init es, track := t }).track
        did oid loc
      = ((goOffline resp { deliveries := applyOfferEvents init es, track := t }).track, none) := by
  have hw : (effectCleanup t).watching = false := by
    unfold effectCleanup stopTracking disconnectSocket
    cases href : ({ t with watching := false } : TrackState).socketRef <;> simp_all
  have href : (effectCleanup t).socketRef = none := by
    unfold effectCleanup stopTracking disconnectSocket
    cases href : ({ t with watching := false } : TrackState).socketRef <;> simp_all
  refine ⟨rfl, hw, href, ?_⟩
  exact sendLocationUpdate_of_ref_none _ did oid loc href

/-- Shape of a socket.io emit payload: either the bare second argument as a
string, or an object wrapping the driver id. -/
inductive SocketPayload where
  | str (s : String)
  | obj (driverId : String)
deriving DecidableEq, Repr

/-- One outbound socket emission: event name and payload. -/
structure Emit where
  event : String
  payload : SocketPayload
deriving DecidableEq, Repr

/-- The connect handler of the tracking socket (useLocationTracking.ts lines
53 to 56): it emits driverConnect with the driverId value itself as the
payload. -/
def trackingOnConnect (driverId : String) : List Emit :=
  [{ event := "driverConnect", payload := .str driverId }]

/-- The connect handler of the offer socket (useOrdersSocket.ts lines 36
to 40): it emits joinDriver with the driverId value itself as the payload. -/
def ordersOnConnect (driverId : String) : List Emit :=
  [{ event := "joinDriver", payload := .str driverId }]

/-- Counterexample to C6 as stated: the identification payload emitted after
connect for driver d1 is the bare string d1, not an object wrapping it. -/
theorem identification_payload_c6_counterexample :
    (ordersOnConnect "d1").map Emit.payload = [SocketPayload.str "d1"]
    ∧ SocketPayload.str "d1" ≠ SocketPayload.obj "d1"
    ∧ (trackingOnConnect "d1").map Emit.payload = [SocketPayload.str "d1"] := by
  refine ⟨rfl, ?_, rfl⟩
  intro h
  cases h

/-- Claim C6 amended: each successful connection runs its connect handler
exactly once per connect event, emitting exactly one identification message,
joinDriver on the offer channel and driverConnect on the tracking channel,
whose payload is the bare driverId string rather than an object. -/
theorem identification_message_c6 (d : String) :
    trackingOnConnect d = [{ event := "driverConnect", payload := .str d }]
    ∧ ordersOnConnect d = [{ event := "joinDriver", payload := .str d }]
    ∧ (trackingOnConnect d).length = 1
    ∧ (ordersOnConnect d).length = 1 :=
  ⟨rfl, rfl, rfl, rfl⟩

/-- AsyncStorage modelled as an association list of key value pairs;
getItem returns the stored value or null. -/
def getItem (store : List (String × String)) (k : String) : Option String :=
  (store.find? (fun p => p.1 == k)).map (fun p => p.2)

/-- Options passed to the io call opening a socket connection: target url,
optional path option, transports, and the optional auth payload holding the
optional token value read from storage. -/
structure IoOptions where
  url : String
  socketPath : Option String
  transports : List String
  auth : Option (Option String)
deriving DecidableEq, Repr

/-- The io call of the tracking channel (useLocationTracking.ts lines 44 to
51): the auth payload is present and holds whatever getItem returned for the
key FoodApp token. -/
def trackingIoOptions (store : List (String × String)) (baseUrl : String) : IoOptions :=
  { url := baseUrl ++ "/orders"
    socketPath := some "/socket.io"
    transports := ["websocket", "polling"]
    auth := some (getItem store "@FoodApp:token") }

/-- The io call of the offer channel (useOrdersSocket.ts lines 30 to 32):
no auth option is passed at all. -/
def ordersIoOptions (apiUrl : String) : IoOptions :=
  { url := apiUrl ++ "/orders"
    socketPath := none
    transports := ["websocket", "polling"]
    auth := none }

/-- The storage writes of the login flow (useAuth.tsx lines 75 to 77): the
access token is stored under the key token. -/
def loginStore (accessToken refreshTok userJson : String) : List (String × String) :=
  [("token", accessToken), ("refreshToken", refreshTok), ("user", userJson)]

/-- Counterexample to C7 as stated: the offer channel connection carries no
auth payload at handshake, and the tracking channel, reading the key
FoodApp token that the login flow never writes, presents a null token. -/
theorem handshake_auth_c7_counterexample :
    (ordersIoOptions "http://localhost:3001").auth = none
    ∧ (trackingIoOptions (loginStore "tok" "ref" "usr") "http://localhost:3001").auth
        = some none := by
  exact ⟨rfl, rfl⟩

/-- Claim C7 amended: only the tracking channel connection carries an auth
payload at handshake, holding the value stored under the key FoodApp token;
the offer channel connection carries none; and since the login flow stores
the access token under the key token, a store populated by login yields a
null token in the tracking auth payload. -/
theorem handshake_auth_c7 (store : List (String × String)) (base a r u : String) :
    (trackingIoOptions store base).auth = some (getItem store "@FoodApp:token")
    ∧ (ordersIoOptions base).auth = none
    ∧ getItem (loginStore a r u) "@FoodApp:token" = none :=
  ⟨rfl, rfl, rfl⟩

/-- Environment against which startTracking runs: availability of the
expo-location module (guarded require, useLocationTracking.ts lines 6 to
12), the outcome of the permission requests and of the two location calls.
Error values stand for the awaited call throwing; the outer try catch of
startTracking absorbs every one of them, which the totality of the Lean
function mirrors. -/
structure LocEnv where
  moduleAvailable : Bool
  foreground : Except Unit Bool
  background : Except Unit Bool
  currentPosition : Except Unit LocationData
  watchResult : Except Unit Nat
deriving Repr

/-- Observable outcome of one startTracking call: the returned Bool, the
error state, the samples handed to the send path, the location state, the
watch subscription and the isTracking flag. -/
structure StartOutcome where
  returned : Bool
  errorMsg : Option String
  sentSamples : List LocationData
  locationSet : Option LocationData
  watchId : Option Nat
  isTracking : Bool
deriving DecidableEq, Repr

/-- From startTracking (useLocationTracking.ts lines 99 to 169): module
missing and permission denied return false with their specific error
message before anything is emitted or watched; a throw from the permission
request, initial fetch or watch call lands in the catch with the generic
failure message; on full success the initial sample is set and sent, the
watch is stored and isTracking becomes true. The background permission
request (lines 116 to 123) is consulted but its failure only warns. -/
def startTracking (env : LocEnv) : StartOutcome :=
  if env.moduleAvailable = false then
    { returned := false, errorMsg := some "Location not available"
      sentSamples := [], locationSet := none, watchId := none, isTracking := false }
  else
    match env.foreground with
    | .error _ =>
        { returned := false, errorMsg := some "Failed to start tracking"
          sentSamples := [], locationSet := none, watchId := none, isTracking := false }
    | .ok granted =>
        if granted = false then
          { returned := false, errorMsg := some "Location permission denied"
            sentSamples := [], locationSet := none, watchId := none, isTracking := false }
        else
          match env.currentPosition with
          | .error _ =>
              { returned := false, errorMsg := some "Failed to start tracking"
                sentSamples := [], locationSet := none, watchId := none, isTracking := false }
          | .ok initLoc =>
              match env.watchResult with
              | .error _ =>
                  { returned := false, errorMsg := some "Failed to start tracking"
                    sentSamples := [initLoc], locationSet := some initLoc
                    watchId := none, isTracking := false }
              | .ok wid =>
                  { returned := true, errorMsg := none
                    sentSamples := [initLoc], locationSet := some initLoc
                    watchId := some wid, isTracking := true }

/-- Claim C8: when the location module is unavailable or the foreground
permission is denied, startTracking returns false, sets the matching typed
error status, emits no sample and creates no watch subscription; the call is
total, so no exception crosses the hook boundary. -/
theorem startTracking_failure_c8 (env : LocEnv)
    (h : env.moduleAvailable = false ∨ env.foreground = .ok false) :
    (startTracking env).returned = false
    ∧ ((startTracking env).errorMsg = some "Location not available"
        ∨ (startTracking env).errorMsg = some "Location permission denied")
    ∧ (startTracking env).sentSamples = []
    ∧ (startTracking env).watchId = none
    ∧ (startTracking env).isTracking = false := by
  rcases h with h | h
  · simp [startTracking, h]
  · cases hm : env.moduleAvailable with
    | false => simp [startTracking, hm]
    | true => simp [startTracking, hm, h]

/-- Environment in which the location module failed to load. -/
def envNoModule : LocEnv :=
  { moduleAvailable := false, foreground := .ok true, background := .ok true
    currentPosition := .ok sampleLoc, watchResult := .ok 0 }

/-- Witness for C8: with the module unavailable, startTracking fails
cleanly with the matching status and without emitting or watching. -/
theorem startTracking_failure_c8_witness :
    (startTracking envNoModule).returned = false
    ∧ ((startTracking envNoModule).errorMsg = some "Location not available"
        ∨ (startTracking envNoModule).errorMsg = some "Location permission denied")
    ∧ (startTracking envNoModule).sentSamples = []
    ∧ (startTracking envNoModule).watchId = none
    ∧ (startTracking envNoModule).isTracking = false :=
  startTracking_failure_c8 envNoModule (Or.inl rfl)

/-- The summary object of the earnings API response; both fields may be
absent. -/
structure EarningsSummary where
  totalEarnings : Option Int
  totalDeliveries : Option Nat
deriving DecidableEq, Repr

/-- The earnings API response body; the summary itself may be absent. -/
structure EarningsResponse where
  summary : Option EarningsSummary
deriving DecidableEq, Repr

/-- Per-period delivery counters of the Earnings record (types/index.ts
lines 85 to 96). -/
structure DeliveriesCount where
  today : Nat
  week : Nat
  month : Nat
  total : Nat
deriving DecidableEq, Repr

/-- The Earnings record stored by the earnings screen (types/index.ts lines
85 to 96). -/
structure Earnings where
  today : Int
  week : Int
  month : Int
  total : Int
  deliveriesCount : DeliveriesCount
deriving DecidableEq, Repr

/-- From EarningsScreen fetchEarnings (part_001 lines 17 to 47): each of the
four period amounts is filled from summary totalEarnings (0 when absent),
each of the four counters from summary totalDeliveries, and a failed request
stores the all-zero record. -/
def fetchEarnings (resp : Except Unit EarningsResponse) : Earnings :=
  match resp with
  | .error _ =>
      { today := 0, week := 0, month := 0, total := 0
        deliveriesCount := { today := 0, week := 0, month := 0, total := 0 } }
  | .ok r =>
      let e := (r.summary.bind (fun s => s.totalEarnings)).getD 0
      let c := (r.summary.bind (fun s => s.totalDeliveries)).getD 0
      { today := e, week := e, month := e, total := e
        deliveriesCount := { today := c, week := c, month := c, total := c } }

/-- Claim C10: every Earnings record the screen stores has all four period
amounts equal and all four counters equal; on a successful fetch every
amount equals summary totalEarnings (0 when absent) and every counter equals
summary totalDeliveries, and a failed fetch stores all eight values as
zero. -/
theorem earnings_uniform_c10 (resp : Except Unit EarningsResponse)
    (r : EarningsResponse) :
    ((fetchEarnings resp).today = (fetchEarnings resp).week
      ∧ (fetchEarnings resp).week = (fetchEarnings resp).month
      ∧ (fetchEarnings resp).month = (fetchEarnings resp).total)
    ∧ ((fetchEarnings resp).deliveriesCount.today = (fetchEarnings resp).deliveriesCount.week
      ∧ (fetchEarnings resp).deliveriesCount.week = (fetchEarnings resp).deliveriesCount.month
      ∧ (fetchEarnings resp).deliveriesCount.month = (fetchEarnings resp).deliveriesCount.total)
    ∧ (fetchEarnings (.ok r)).total = (r.summary.bind (fun s => s.totalEarnings)).getD 0
    ∧ (fetchEarnings (.ok r)).deliveriesCount.total
        = (r.summary.bind (fun s => s.totalDeliveries)).getD 0
    ∧ fetchEarnings (.error ())
        = { today := 0, week := 0, month := 0, total := 0
            deliveriesCount := { today := 0, week := 0, month := 0, total := 0 } } := by
  refine ⟨?_, ?_, rfl, rfl, rfl⟩
  · cases resp <;> exact ⟨rfl, rfl, rfl⟩
  · cases resp <;> exact ⟨rfl, rfl, rfl⟩

end ZeFood
